import Mathlib

/-!
# Verification of the `aiworkflow` workflow engine (`src/aiworkflow/core/engine.py`)

A shallow embedding of the engine module: `RetryPolicy`, `CircuitBreaker`,
and `WorkflowEngine` (`execute`, `_execute_step_with_retry`,
`_execute_agent_task`, `_evaluate_conditions`, `_validate_execution`,
`_finalize_execution`, `_generate_run_id`, `cancel`).

Python floats are modelled as rationals (ℚ); the values involved in the
claims (1.0, 2.0, 60.0, …) are exact in both representations.  Wall-clock
time is not modelled: `datetime.now()` timestamps are dropped, and the
circuit breaker's "recovery timeout has elapsed" test becomes an explicit
boolean input.  External collaborators (agent adapter, tool registry,
Python's `random.uniform` and `float`, the context's template resolver,
`uuid4`/`strftime`) are passed in as oracle functions, mirroring the
points where the source calls out of the engine module.

The companion modules `models.py`, `state.py` and `logging.py` are
imported by the engine but are not part of the source tree; the
definitions taken from them are marked `Modelled from the spec:` and
follow the specification's description of those components.
-/

/-- A Python runtime value, as far as the engine inspects one:
strings (template leaves), numbers, booleans, `None`, lists and
string-keyed mappings.  Mappings are association lists; the engine only
ever reads them through key lookup. -/
inductive Val where
  | vstr : String → Val
  | vnum : ℚ → Val
  | vbool : Bool → Val
  | vnone : Val
  | vlist : List Val → Val
  | vdict : List (String × Val) → Val

/-- Key lookup in a mapping modelled as an association list: the
*last* binding for a key wins, matching Python's `dict` update
semantics as produced by `dictMerge` below. -/
def dictGet (m : List (String × Val)) (k : String) : Option Val :=
  (m.reverse.find? fun p => p.1 = k).map Prod.snd

/-- Python's `{**a, **b}`: all keys of `a`, then all keys of `b`, with
`b`'s values overwriting `a`'s on collision.  With `dictGet`'s
last-binding-wins reading, plain concatenation models this exactly. -/
def dictMerge (a b : List (String × Val)) : List (String × Val) :=
  a ++ b

/-- Python `dict[k] = v`, used for `variables`: bind (or overwrite) one key. -/
def dictSet (m : List (String × Val)) (k : String) (v : Val) : List (String × Val) :=
  m ++ [(k, v)]

/-- Python truthiness, used by the engine in `if step_result.output` and
`if resume_from` style tests. -/
def Val.truthy : Val → Bool
  | .vstr s => s ≠ ""
  | .vnum q => q ≠ 0
  | .vbool b => b
  | .vnone => false
  | .vlist l => !l.isEmpty
  | .vdict m => !m.isEmpty

/-- Python `a or b` for an optional string `a` (`None` and `""` are falsy). -/
def pyOrStr (a : Option String) (b : String) : String :=
  match a with
  | some s => if s = "" then b else s
  | none => b

/-- Python truthiness of an optional string (`None` and `""` are falsy). -/
def optStrTruthy (a : Option String) : Bool :=
  match a with
  | some s => s ≠ ""
  | none => false

/-- Split a character list at the first occurrence of `sep`,
returning the parts before and after it, or nothing when `sep` does
not occur. -/
def splitFirst (sep : List Char) : List Char → Option (List Char × List Char)
  | [] => none
  | c :: rest =>
    if sep.isPrefixOf (c :: rest) then some ([], (c :: rest).drop sep.length)
    else match splitFirst sep rest with
      | some lr => some (c :: lr.1, lr.2)
      | none => none

/-- Python `sep in s` for strings (`sep` non-empty, as in the source's
uses): does `sep` occur in `s`? -/
def hasSub (s sep : String) : Bool :=
  (splitFirst sep.data s.data).isSome

/-- Python `s.split(sep, 1)`: split at the first occurrence of `sep`,
returning the part before it and everything after it (`s` itself when
`sep` does not occur, a case the source's branches never reach). -/
def splitOnce (s sep : String) : String × String :=
  match splitFirst sep.data s.data with
  | some lr => (String.mk lr.1, String.mk lr.2)
  | none => (s, "")

/-- Python whitespace for `str.strip`. -/
def isPySpace (c : Char) : Bool :=
  c = ' ' ∨ c = '\t' ∨ c = '\n' ∨ c = '\r'

/-- Python `s.strip()`: drop whitespace from both ends. -/
def pyStrip (s : String) : String :=
  String.mk (((s.data.dropWhile isPySpace).reverse.dropWhile isPySpace).reverse)

/-! ## RetryPolicy (`engine.py` lines 41-88) -/

/-- Source `RetryPolicy.__init__` field for field, with the source's defaults.
Delays are rationals standing for Python floats. -/
structure RetryPolicy where
  max_retries : Nat := 3
  base_delay : ℚ := 1
  max_delay : ℚ := 60
  exponential_base : ℚ := 2
  jitter : ℚ := 1/10
deriving DecidableEq, Repr

/-- Source `RetryPolicy.get_delay`.  Here `rand` is the value drawn by
`random.uniform(-jitter_range, jitter_range)`; the source only draws it
when `jitter > 0`, so the result may depend on `rand` only in that
branch.  1-based `attempt` as in the source. -/
def RetryPolicy.get_delay (p : RetryPolicy) (attempt : Nat) (rand : ℚ) : ℚ :=
  let delay := p.base_delay * p.exponential_base ^ (attempt - 1)
  let delay := if p.jitter > 0 then delay + rand else delay
  if delay ≤ p.max_delay then delay else p.max_delay

/-! ## CircuitBreaker (`engine.py` lines 91-178) -/

/-- The three breaker states (`CLOSED`/`OPEN`/`HALF_OPEN` string
constants in the source). -/
inductive CBState where
  | closed
  | opened
  | halfOpen
deriving DecidableEq, Repr

/-- Source `CircuitBreaker` configuration and mutable fields.
`_last_failure_time : datetime | None` is modelled by the boolean
`has_last_failure` (whether it is set); the actual timestamp only feeds
the elapsed-time test, which is an explicit input to `stateQuery`. -/
structure CircuitBreaker where
  failure_threshold : Nat := 5
  half_open_max_calls : Nat := 3
  state : CBState := .closed
  failure_count : Nat := 0
  has_last_failure : Bool := false
  half_open_calls : Nat := 0
deriving DecidableEq, Repr

/-- The `state` property (lines 128-138): reading the state performs the
lazy OPEN → HALF_OPEN transition when a failure time is recorded and the
recovery timeout has elapsed (`elapsed` stands for
`(now - last_failure_time).total_seconds() >= recovery_timeout`).
Returns the possibly-updated breaker; its `.state` field is the value
the property returns. -/
def CircuitBreaker.stateQuery (cb : CircuitBreaker) (elapsed : Bool) : CircuitBreaker :=
  if cb.state = .opened ∧ cb.has_last_failure ∧ elapsed then
    { cb with state := .halfOpen, half_open_calls := 0 }
  else cb

/-- Source `can_execute` (lines 140-147): queries `state` (which may mutate)
and gates on the result. -/
def CircuitBreaker.canExecute (cb : CircuitBreaker) (elapsed : Bool) :
    CircuitBreaker × Bool :=
  let cb := cb.stateQuery elapsed
  (cb, match cb.state with
    | .closed => true
    | .halfOpen => cb.half_open_calls < cb.half_open_max_calls
    | .opened => false)

/-- Source `record_success` (lines 149-159). -/
def CircuitBreaker.record_success (cb : CircuitBreaker) : CircuitBreaker :=
  if cb.state = .halfOpen then
    let calls := cb.half_open_calls + 1
    if calls ≥ cb.half_open_max_calls then
      { cb with state := .closed, failure_count := 0, half_open_calls := calls }
    else { cb with half_open_calls := calls }
  else if cb.state = .closed then { cb with failure_count := 0 }
  else cb

/-- Source `record_failure` (lines 161-171): increment the count and set the
failure timestamp, then transition HALF_OPEN → OPEN, or CLOSED → OPEN
once the count reaches the threshold. -/
def CircuitBreaker.record_failure (cb : CircuitBreaker) : CircuitBreaker :=
  let cb := { cb with failure_count := cb.failure_count + 1, has_last_failure := true }
  if cb.state = .halfOpen then { cb with state := .opened }
  else if cb.failure_count ≥ cb.failure_threshold then { cb with state := .opened }
  else cb

/-- Source `reset` (lines 173-178). -/
def CircuitBreaker.resetCB (cb : CircuitBreaker) : CircuitBreaker :=
  { cb with
    state := .closed
    failure_count := 0
    has_last_failure := false
    half_open_calls := 0 }

/-- The breaker operations claim C9 quantifies over. -/
inductive CBOp where
  | failure
  | success
  | reset
deriving DecidableEq, Repr

/-- Apply one breaker operation. -/
def CircuitBreaker.applyOp (cb : CircuitBreaker) : CBOp → CircuitBreaker
  | .failure => cb.record_failure
  | .success => cb.record_success
  | .reset => cb.resetCB

/-- Apply a sequence of breaker operations, oldest first. -/
def CircuitBreaker.runOps (cb : CircuitBreaker) (ops : List CBOp) : CircuitBreaker :=
  ops.foldl CircuitBreaker.applyOp cb

/-- Source `CircuitBreaker.__init__` with given thresholds: CLOSED, zero
counters, no failure timestamp. -/
def CircuitBreaker.init (thr maxCalls : Nat) : CircuitBreaker :=
  { failure_threshold := thr, half_open_max_calls := maxCalls }

/-! ### Circuit breaker invariant (claim C9) -/

/-- The inductive invariant behind C9: whenever the breaker is CLOSED,
its failure count is bounded by the threshold. -/
def cbClosedBound (cb : CircuitBreaker) : Prop :=
  cb.state = .closed → cb.failure_count ≤ cb.failure_threshold

theorem cbClosedBound_applyOp (cb : CircuitBreaker) (op : CBOp)
    (h : cbClosedBound cb) : cbClosedBound (cb.applyOp op) := by
  cases op with
  | failure =>
    intro hs
    simp only [CircuitBreaker.applyOp, CircuitBreaker.record_failure] at hs ⊢
    split_ifs at hs ⊢ with h1 h2 <;> simp_all <;> omega
  | success =>
    intro hs
    simp only [CircuitBreaker.applyOp, CircuitBreaker.record_success] at hs ⊢
    split_ifs at hs ⊢ with h1 h2 <;> simp_all [cbClosedBound]
  | reset =>
    intro hs
    simp [CircuitBreaker.applyOp, CircuitBreaker.resetCB]

theorem cbClosedBound_runOps (cb : CircuitBreaker) (ops : List CBOp)
    (h : cbClosedBound cb) : cbClosedBound (cb.runOps ops) := by
  induction ops generalizing cb with
  | nil => exact h
  | cons op rest ih =>
    exact ih (cb.applyOp op) (cbClosedBound_applyOp cb op h)

theorem cb_applyOp_threshold (cb : CircuitBreaker) (op : CBOp) :
    (cb.applyOp op).failure_threshold = cb.failure_threshold := by
  cases op <;>
    simp only [CircuitBreaker.applyOp, CircuitBreaker.record_failure,
      CircuitBreaker.record_success, CircuitBreaker.resetCB] <;>
    split_ifs <;> rfl

theorem cb_runOps_threshold (cb : CircuitBreaker) (ops : List CBOp) :
    (cb.runOps ops).failure_threshold = cb.failure_threshold := by
  induction ops generalizing cb with
  | nil => rfl
  | cons op rest ih =>
    rw [CircuitBreaker.runOps, List.foldl_cons, ← CircuitBreaker.runOps,
      ih, cb_applyOp_threshold]

/-- C9: for every threshold/half-open configuration and every
sequence of `record_failure` / `record_success` / `reset` calls starting
from a fresh breaker: while the state is CLOSED the failure count is
bounded by `failure_threshold`; a `record_success` in CLOSED resets the
count to 0; and a `record_failure` whose increment reaches
`failure_threshold` moves the state to OPEN within that same call. -/
theorem circuitBreaker_closed_invariant (thr maxCalls : Nat) (ops : List CBOp) :
    let s := (CircuitBreaker.init thr maxCalls).runOps ops
    (s.state = .closed → s.failure_count ≤ thr) ∧
    (s.state = .closed → s.record_success.failure_count = 0) ∧
    (s.state = .closed → s.failure_count + 1 ≥ thr →
      s.record_failure.state = .opened) := by
  intro s
  have hthr : s.failure_threshold = thr :=
    cb_runOps_threshold (CircuitBreaker.init thr maxCalls) ops
  have hbound : cbClosedBound s := by
    apply cbClosedBound_runOps
    intro _
    simp [CircuitBreaker.init]
  refine ⟨fun hc => hthr ▸ hbound hc, fun hc => ?_, fun hc hge => ?_⟩
  · simp [CircuitBreaker.record_success, hc]
  · simp only [CircuitBreaker.record_failure]
    split_ifs with h1 h2
    · simp_all
    · rfl
    · exact absurd (by omega : s.failure_threshold ≤ s.failure_count + 1) h2

/-- Witness for C9 at a concrete configuration: threshold 2, one
recorded failure — the breaker is still CLOSED, so the theorem's three
hypotheses can be discharged there. -/
theorem circuitBreaker_closed_invariant_witness :
    ((CircuitBreaker.init 2 3).runOps [CBOp.failure]).failure_count ≤ 2 ∧
    ((CircuitBreaker.init 2 3).runOps [CBOp.failure]).record_success.failure_count = 0 ∧
    ((CircuitBreaker.init 2 3).runOps [CBOp.failure]).record_failure.state = .opened := by
  refine ⟨(circuitBreaker_closed_invariant 2 3 [CBOp.failure]).1 (by decide),
    (circuitBreaker_closed_invariant 2 3 [CBOp.failure]).2.1 (by decide),
    (circuitBreaker_closed_invariant 2 3 [CBOp.failure]).2.2 (by decide) (by decide)⟩

/-! ### Retry delay determinism (claim C8) -/

/-- C8: with `jitter = 0`, `get_delay` on 1-based attempt `n ≥ 1`
is exactly `min (base_delay · exponential_base^(n-1)) max_delay`, for
*every* value of the random draw — deterministic. -/
theorem get_delay_deterministic_when_jitter_zero (p : RetryPolicy) (n : Nat) (rand : ℚ)
    (hj : p.jitter = 0) (hn : 1 ≤ n) :
    p.get_delay n rand = min (p.base_delay * p.exponential_base ^ (n - 1)) p.max_delay := by
  simp [RetryPolicy.get_delay, hj, min_def]

/-- Witness for C8: the default policy with jitter forced to 0, attempt
2, an arbitrary nonzero random draw; the delay is the jitter-free value. -/
theorem get_delay_deterministic_when_jitter_zero_witness :
    RetryPolicy.get_delay { jitter := 0 } 2 5 =
      min ((1 : ℚ) * 2 ^ (2 - 1)) 60 := by
  exact get_delay_deterministic_when_jitter_zero { jitter := 0 } 2 5 rfl (by decide)

/-! ## Data model (`models.py`, `state.py`, `logging.py` — absent from the
source tree; modelled from the spec, §3 and §4.4-4.5) -/

/-- Step status values of `StepResult` (spec §3). -/
inductive StepStatus where
  | completed
  | failed
  | skipped
deriving DecidableEq, Repr

/-- Modelled from the spec: `StepResult` (§3, `models.py` missing).
Timestamps are dropped (time is not modelled); `retries` defaults to 0,
matching the source's construction of skipped results without a
`retries` argument. -/
structure StepResult where
  step_id : String
  status : StepStatus
  output : Option Val := none
  error : Option String := none
  retries : Nat := 0

/-- Modelled from the spec: `StepResult.success` (`models.py` missing);
the engine branches on it where §3 distinguishes `completed` from
`failed`/`skipped`. -/
def StepResult.success (r : StepResult) : Bool :=
  r.status == .completed

/-- Run status values of `WorkflowResult` (spec §3). -/
inductive WorkflowStatus where
  | completed
  | failed
deriving DecidableEq, Repr

/-- Modelled from the spec: `WorkflowResult` (§3, `models.py` missing),
timestamps dropped.  Fields not passed at a construction site keep
these defaults (empty step list, no final output, no error). -/
structure WorkflowResult where
  run_id : String
  workflow_id : String
  agent_name : String
  status : WorkflowStatus
  step_results : List StepResult := []
  final_output : Option (List (String × Val)) := none
  error : Option String := none

/-- Status values of persisted records and checkpoints (spec §3). -/
inductive ExecutionStatus where
  | running
  | completed
  | failed
deriving DecidableEq, Repr

/-- Modelled from the spec: `ExecutionRecord` (§3, `state.py` missing),
restricted to the fields the engine reads or writes; timestamps and
`workflow_path` dropped. -/
structure ExecutionRecord where
  run_id : String
  workflow_id : String
  status : ExecutionStatus
  total_steps : Nat
  agent : String
  error : Option String := none
  outputs : Option (List (String × Val)) := none

/-- Modelled from the spec: `StepCheckpoint` (§3, `state.py` missing),
keyed by `(run_id, step_index)`.  `outputs` holds the payload the engine
passes (`{"output": v}` collapsed to the value `v`, `None` when the
step output was falsy). -/
structure StepCheckpoint where
  run_id : String
  step_index : Nat
  step_name : String
  status : ExecutionStatus
  outputs : Option Val := none
  error : Option String := none
  retry_count : Nat := 0

/-- Modelled from the spec: the state store (§4.4, `state.py` missing)
as the lists of records and checkpoints it persists. -/
structure StateStore where
  executions : List ExecutionRecord := []
  checkpoints : List StepCheckpoint := []

/-- Modelled from the spec: `create_execution` (§4.4) stores a new
record (the engine only calls it with a freshly generated `run_id`). -/
def StateStore.create_execution (st : StateStore) (r : ExecutionRecord) : StateStore :=
  { st with executions := st.executions ++ [r] }

/-- Modelled from the spec: `get_execution` (§4.4) returns the record
with the given `run_id`, or nothing. -/
def StateStore.get_execution (st : StateStore) (rid : String) : Option ExecutionRecord :=
  st.executions.find? fun r => r.run_id == rid

/-- Modelled from the spec: `update_execution` (§4.4); the engine's
`_finalize_execution` rewrites status, outputs and error of the record. -/
def StateStore.update_execution (st : StateStore) (rid : String)
    (status : ExecutionStatus) (outputs : Option (List (String × Val)))
    (error : Option String) : StateStore :=
  { st with executions := st.executions.map fun r =>
      if r.run_id == rid then
        { r with status := status, outputs := outputs, error := error }
      else r }

/-- Modelled from the spec: `save_checkpoint` (§4.4), an upsert keyed by
`(run_id, step_index)`. -/
def StateStore.save_checkpoint (st : StateStore) (cp : StepCheckpoint) : StateStore :=
  { st with checkpoints :=
      (st.checkpoints.filter fun c =>
        !(c.run_id == cp.run_id && c.step_index == cp.step_index)) ++ [cp] }

/-- Whether a checkpoint with status `completed` exists for the given
run and step index. -/
def StateStore.completedAt (st : StateStore) (rid : String) (i : Nat) : Bool :=
  st.checkpoints.any fun c =>
    c.run_id == rid && c.step_index == i && c.status == ExecutionStatus.completed

/-- Fuel-bounded scan for the smallest index with no completed
checkpoint; the fuel only needs to exceed the number of stored
checkpoints. -/
def StateStore.resumeScan (st : StateStore) (rid : String) : Nat → Nat → Nat
  | 0, i => i
  | fuel + 1, i => if st.completedAt rid i then st.resumeScan rid fuel (i + 1) else i

/-- Modelled from the spec: `get_resume_point` (§4.4) — the smallest
step index whose checkpoint is not `completed` (0 when there are no
checkpoints, the total step count when all are completed). -/
def StateStore.get_resume_point (st : StateStore) (rid : String) : Nat :=
  st.resumeScan rid (st.checkpoints.length + 1) 0

/-- Modelled from the spec: the structured log events of §4.5
(`logging.py` missing).  Durations and timestamps are dropped;
`step_retrying` carries attempt index, retry budget and next delay as
in the engine's call. -/
inductive LogEvent where
  | run_started
  | step_started (name : String) (idx : Nat)
  | step_completed (name : String) (idx : Nat) (output : Option Val)
  | step_failed (name : String) (idx : Nat) (err : String)
  | step_retrying (name : String) (idx : Nat) (attempt maxr : Nat) (delay : ℚ)
  | run_completed
  | run_failed

/-- Modelled from the spec: a declared workflow input parameter
(§3: name, required flag, optional default). -/
structure InputParam where
  name : String
  required : Bool
  default : Option Val := none

/-- The workflow-level `error_handling` policy (spec §3:
`continue` / `stop` / `rollback`). -/
inductive ErrorHandling where
  | continueOn
  | stop
  | rollback
deriving DecidableEq, Repr

/-- Modelled from the spec: the workflow metadata the engine reads
(`metadata.id`, `metadata.name`, `metadata.error_handling`). -/
structure WorkflowMetadata where
  id : String
  name : String
  error_handling : ErrorHandling

/-- Modelled from the spec: a workflow step (§3).  `max_retries` is the
step's `error_handling.max_retries`; `hints` is `get_hints_for_agent`
as a function of the agent name. -/
structure WorkflowStep where
  id : String
  name : String
  action : String
  inputs : List (String × Val) := []
  output_variable : Option String := none
  conditions : List String := []
  max_retries : Nat := 3
  hints : String → List (String × Val) := fun _ => []

/-- Modelled from the spec: the workflow shape the engine consumes
(§3, §6): metadata, ordered steps, declared input parameters, the
required-tools list (`get_required_tools`) and the agent-compatibility
predicate (`is_compatible_with`). -/
structure Workflow where
  metadata : WorkflowMetadata
  steps : List WorkflowStep
  inputParams : List InputParam := []
  required_tools : List String := []
  compatiblePred : String → Bool := fun _ => true

/-- Does the mapping contain the key (Python `k in m`)? -/
def dictHasKey (m : List (String × Val)) (k : String) : Bool :=
  m.any fun p => p.1 == k

/-- Modelled from the spec: `ExecutionContext` (§3, `models.py`
missing), restricted to what the engine touches.  Following boundary
behavior B1 (empty workflow ⇒ final `variables` = `inputs`), a fresh
context's `vars` field (the source's `variables` mapping — that name
is a reserved token here) starts as a copy of `inputs`. -/
structure ExecutionContext where
  run_id : String
  agent_name : String
  inputs : List (String × Val)
  vars : List (String × Val)
  current_step_index : Nat := 0

/-- Source `_create_context` (lines 563-592): the agent name is
`config["agent"]["primary"]` with default `"opencode"`; capabilities
are built but never read by the engine, so they are dropped here. -/
def createContext (agentPrimary : Option String) (run_id : String)
    (inputs : List (String × Val)) : ExecutionContext :=
  { run_id := run_id
    agent_name := agentPrimary.getD "opencode"
    inputs := inputs
    vars := inputs }

/-! ## Condition evaluation (`_evaluate_conditions`, lines 620-650) -/

/-- The body of the `for condition in conditions` loop of
`_evaluate_conditions`: resolve the template (an exception — `none` —
fails the condition), then check the first matching form.  A resolved
string containing `==` is compared as trimmed strings; otherwise one
containing `>=` is compared numerically after parsing both sides with
`parseNum` (Python `float`, `none` for `ValueError`); a string matching
neither form falls through the `if`/`elif` and the condition passes. -/
def evaluateCondition (parseNum : String → Option ℚ) (resolve : String → Option String)
    (condition : String) : Bool :=
  match resolve condition with
  | none => false
  | some resolved =>
    if hasSub resolved "==" then
      let lr := splitOnce resolved "=="
      pyStrip lr.1 == pyStrip lr.2
    else if hasSub resolved ">=" then
      let lr := splitOnce resolved ">="
      match parseNum (pyStrip lr.1), parseNum (pyStrip lr.2) with
      | some a, some b => !(a < b)
      | _, _ => false
    else true

/-- Source `_evaluate_conditions`: true for an empty list, otherwise
every condition must pass (the source returns `False` at the first
failing condition and `True` after the loop, which is `List.all`). -/
def evaluateConditions (parseNum : String → Option ℚ) (resolve : String → Option String)
    (conditions : List String) : Bool :=
  if conditions.isEmpty then true
  else conditions.all (evaluateCondition parseNum resolve)

/-! ## Agent task dispatch (`_execute_agent_task`, lines 523-540) -/

/-- The agent adapter contract (spec §6): `execute_step(step, context)`,
asynchronous and fallible — here a function to `Except`. -/
def AgentAdapter : Type :=
  WorkflowStep → ExecutionContext → Except String Val

/-- Source `_execute_agent_task`: error when no adapter is configured;
otherwise compute the per-agent hints and the merged
`task_inputs = {**inputs, **hints}`, then call
`agent_adapter.execute_step(step, context)`.  The merged mapping is
bound but — exactly as in the source — not passed to the adapter. -/
def executeAgentTask (adapter : Option AgentAdapter) (step : WorkflowStep)
    (inputs : List (String × Val)) (ctx : ExecutionContext) : Except String Val :=
  match adapter with
  | none => .error "No agent adapter configured"
  | some ad =>
    let hints := step.hints ctx.agent_name
    let _task_inputs := dictMerge inputs hints
    ad step ctx

/-- The merged mapping `{**inputs, **hints}` computed by
`_execute_agent_task` (line 537). -/
def agentTaskInputs (step : WorkflowStep) (inputs : List (String × Val))
    (agent : String) : List (String × Val) :=
  dictMerge inputs (step.hints agent)

/-! ## Step retry (`_execute_step_with_retry`, lines 425-482) -/

/-- The observable outcome of one `_execute_step_with_retry` call: the
`StepResult`, the `step_retrying` log entries emitted, the 0-based
attempt numbers actually dispatched, and the delays slept. -/
structure RetryOut where
  result : StepResult
  retryEvents : List LogEvent
  dispatchedAttempts : List Nat
  sleeps : List ℚ

/-- The `for attempt in range(max_retries + 1)` loop.  `dispatch`
bundles `_resolve_inputs` plus the agent/tool call for a given attempt
(an exception is `.error`).  On success the result records
`retries = attempt`; on failure with `attempt < maxr` the engine logs
`step_retrying(attempt+1, maxr, delay)` (when a log was started) and
sleeps `get_delay(attempt+1)`; after the last attempt the failed result
carries the last error and `retries = maxr`.  Structured as fuel
recursion; `executeStepWithRetry` supplies fuel `maxr + 1`, exactly the
number of loop iterations, so the base case (the source's fall-through
return) is reached only with the last error at hand. -/
def attemptsLoop (policy : RetryPolicy) (dispatch : Nat → Except String Val)
    (rand : Nat → ℚ) (logOn : Bool) (stepId stepName : String) (stepIdx : Nat)
    (maxr : Nat) : Nat → Nat → Option String → RetryOut
  | _attempt, 0, lastError =>
    { result := { step_id := stepId, status := .failed, error := lastError, retries := maxr }
      retryEvents := []
      dispatchedAttempts := []
      sleeps := [] }
  | attempt, fuel + 1, _lastError =>
    match dispatch attempt with
    | .ok v =>
      { result := { step_id := stepId, status := .completed, output := some v, retries := attempt }
        retryEvents := []
        dispatchedAttempts := [attempt]
        sleeps := [] }
    | .error e =>
      if attempt < maxr then
        let delay := policy.get_delay (attempt + 1) (rand attempt)
        let ev := if logOn then
            [LogEvent.step_retrying stepName stepIdx (attempt + 1) maxr delay]
          else []
        let rest := attemptsLoop policy dispatch rand logOn stepId stepName stepIdx
          maxr (attempt + 1) fuel (some e)
        { result := rest.result
          retryEvents := ev ++ rest.retryEvents
          dispatchedAttempts := attempt :: rest.dispatchedAttempts
          sleeps := delay :: rest.sleeps }
      else
        { result := { step_id := stepId, status := .failed, error := some e, retries := maxr }
          retryEvents := []
          dispatchedAttempts := [attempt]
          sleeps := [] }

/-- Source `_execute_step_with_retry`: the effective retry budget is
`min(step.error_handling.max_retries, self.retry_policy.max_retries)`
(line 434) and the loop makes at most `budget + 1` attempts. -/
def executeStepWithRetry (policy : RetryPolicy) (dispatch : Nat → Except String Val)
    (rand : Nat → ℚ) (logOn : Bool) (step : WorkflowStep) (stepIdx : Nat) : RetryOut :=
  let maxr := min step.max_retries policy.max_retries
  attemptsLoop policy dispatch rand logOn step.id step.name stepIdx maxr 0 (maxr + 1) none

/-! ## The engine (`WorkflowEngine`, lines 181-692) -/

/-- The engine's collaborators and configuration as `execute` reads
them.  `tool_has` is `tool_registry.has_tool` when a registry is
configured (the registry's other half, `get_tool`, only matters inside
dispatch, which the execution oracle absorbs); `agentPrimary` is
`config["agent"]["primary"]`; `hasLogger` says whether an
`execution_logger` is configured.  The agent adapter does not appear:
its calls are likewise absorbed by the dispatch oracle. -/
structure WorkflowEngine where
  tool_has : Option (String → String → Bool) := none
  agentPrimary : Option String := none
  state_store : Option StateStore := none
  hasLogger : Bool := false
  retry_policy : RetryPolicy := {}
  circuit_breaker : Option CircuitBreaker := none

/-- Source `_validate_execution` (lines 594-618): missing required
tools (when a registry is configured), required inputs that are absent
and have no default, and agent incompatibility, in that order. -/
def validateExecution (eng : WorkflowEngine) (wf : Workflow)
    (ctx : ExecutionContext) : List String :=
  let toolErrors := match eng.tool_has with
    | none => []
    | some hasTool => wf.required_tools.filterMap fun t =>
        if hasTool t ctx.agent_name then none
        else some ("Required tool not available: " ++ t)
  let inputErrors := wf.inputParams.filterMap fun p =>
    if p.required && !(dictHasKey ctx.inputs p.name) && p.default.isNone then
      some ("Required input not provided: " ++ p.name)
    else none
  let compatErrors :=
    if wf.compatiblePred ctx.agent_name then []
    else ["Workflow not compatible with agent: " ++ ctx.agent_name]
  toolErrors ++ inputErrors ++ compatErrors

/-- Source `_generate_run_id` (lines 683-687): the workflow id, the
`%Y%m%d-%H%M%S`-formatted current time and the first 8 characters of a
`uuid4` hex string, joined by dashes.  Clock and randomness are inputs. -/
def generateRunId (workflow_id timestamp uuidHex : String) : String :=
  workflow_id ++ "-" ++ timestamp ++ "-" ++ String.mk (uuidHex.data.take 8)

/-- Source lines 258-264: reuse `resume_from` as the run id and start
from the store's resume point exactly when `resume_from` is truthy
(given and non-empty) *and* a state store is configured; otherwise a
fresh id and step 0.  `fresh` is the id `_generate_run_id` would mint. -/
def runIdAndStart (eng : WorkflowEngine) (resume_from : Option String)
    (fresh : String) : String × Nat :=
  match resume_from, eng.state_store with
  | some rid, some st => if rid = "" then (fresh, 0) else (rid, st.get_resume_point rid)
  | _, _ => (fresh, 0)

/-- The engine's environment for one `execute` call.  `dispatch i a` is
the outcome of attempt `a` (0-based) of step `i` — it bundles
`_resolve_inputs` and the agent/tool call, whose exceptions become
`.error`.  `resolveCond`/`parseNum` serve condition evaluation,
`rand i a` is the jitter draw, `freshRunId` the id `_generate_run_id`
would produce, `elapsed` the breaker's recovery-timeout test, and
`cancelBefore i` says whether the environment calls `cancel()` before
loop iteration `i` (claim C2's interleaving point). -/
structure Oracle where
  dispatch : Nat → Nat → Except String Val
  resolveCond : String → Option String := fun s => some s
  parseNum : String → Option ℚ := fun _ => none
  rand : Nat → Nat → ℚ := fun _ _ => 0
  freshRunId : String := "fresh"
  elapsed : Bool := false
  cancelBefore : Nat → Bool := fun _ => false

/-- Everything observable about one `execute` call: the returned
`WorkflowResult`, the final state store and circuit breaker, the log
events emitted, whether a log was started and a record created, the
`(step, attempt)` pairs dispatched, the delays slept, and the computed
start step. -/
structure ExecOutcome where
  result : WorkflowResult
  state_store : Option StateStore
  circuit_breaker : Option CircuitBreaker
  log : List LogEvent := []
  logStarted : Bool := false
  recordCreated : Bool := false
  dispatched : List (Nat × Nat) := []
  sleeps : List ℚ := []
  start_step : Nat := 0

/-- The state threaded through the `for i, step in enumerate(...)`
loop: the context's variable map and current index, accumulated step
results / log / store, the instrumentation lists, the `_running` flag,
the pending final status and error, and whether the loop has exited
via `break` (`broke`). -/
structure LoopState where
  vars : List (String × Val)
  current_step_index : Nat
  step_results : List StepResult
  store : Option StateStore
  log : List LogEvent
  dispatched : List (Nat × Nat)
  sleeps : List ℚ
  running : Bool
  finalStatus : WorkflowStatus
  errorMessage : Option String
  broke : Bool

/-- One iteration of the step loop (source lines 318-387) for step
`step` at index `i`.  A `cancel()` delivered before this iteration
(`o.cancelBefore i`) clears the `running` flag — and nothing else: the
source's loop body never reads `_running`, so the iteration proceeds
identically.  Indices below the resume point are skipped outright;
then conditions are evaluated (false ⇒ a skipped `StepResult`, no
checkpoint, no dispatch); otherwise the step runs under retry, a
checkpoint is saved, the output variable is bound when declared and the
output is not `None`, completion is logged, and the error-handling
policy decides whether to break. -/
def stepIter (eng : WorkflowEngine) (wf : Workflow) (o : Oracle) (run_id : String)
    (start_step : Nat) (s : LoopState) (i : Nat) (step : WorkflowStep) : LoopState :=
  if s.broke then s
  else
    let s := if o.cancelBefore i then { s with running := false } else s
    if i < start_step then s
    else
      let s := { s with current_step_index := i }
      let s := if eng.hasLogger then
          { s with log := s.log ++ [LogEvent.step_started step.name i] }
        else s
      if evaluateConditions o.parseNum o.resolveCond step.conditions then
        let r := executeStepWithRetry eng.retry_policy (o.dispatch i) (o.rand i)
          eng.hasLogger step i
        let s := { s with
          step_results := s.step_results ++ [r.result]
          log := s.log ++ r.retryEvents
          dispatched := s.dispatched ++ r.dispatchedAttempts.map (fun a => (i, a))
          sleeps := s.sleeps ++ r.sleeps }
        let s := match s.store with
          | none => s
          | some st =>
            let cp : StepCheckpoint := {
              run_id := run_id
              step_index := i
              step_name := step.name
              status := if r.result.success then .completed else .failed
              outputs := match r.result.output with
                | some v => if v.truthy then some v else none
                | none => none
              error := r.result.error
              retry_count := r.result.retries }
            { s with store := some (st.save_checkpoint cp) }
        let s := match step.output_variable with
          | some nm =>
            if nm ≠ "" ∧ r.result.output.isSome then
              { s with vars := dictSet s.vars nm (r.result.output.getD .vnone) }
            else s
          | none => s
        let s := if eng.hasLogger then
            { s with log := s.log ++ [if r.result.success then
                LogEvent.step_completed step.name i r.result.output
              else
                LogEvent.step_failed step.name i (r.result.error.getD "Unknown error")] }
          else s
        if r.result.success then s
        else
          match wf.metadata.error_handling with
          | .stop =>
            { s with
              finalStatus := .failed
              errorMessage := some ("Step '" ++ step.id ++ "' failed: " ++
                (r.result.error.getD "None"))
              broke := true }
          | .rollback =>
            { s with
              finalStatus := .failed
              errorMessage := some ("Step '" ++ step.id ++ "' failed, rollback triggered")
              broke := true }
          | .continueOn => s
      else
        { s with step_results := s.step_results ++ [{ step_id := step.id, status := .skipped }] }

/-- Source `_finalize_execution` (lines 484-513), state-store half:
when the store holds a record for `run_id`, rewrite its status
(completed on success, failed otherwise), outputs and error. -/
def finalizeStore (store : Option StateStore) (run_id : String) (success : Bool)
    (outputs : Option (List (String × Val))) (error : Option String) :
    Option StateStore :=
  match store with
  | none => none
  | some st =>
    match st.get_execution run_id with
    | none => some st
    | some _ => some (st.update_execution run_id
        (if success then .completed else .failed) outputs error)

/-- Source `execute` after the circuit-breaker gate (lines 258-423):
run-id selection, context creation, log start, record creation (only
when not resuming), validation (failing it finalizes and returns
before any step and before the breaker update), the step loop, the
breaker update, and finalization.  `cbAfterGate` is the breaker as the
gate's `state` query left it. -/
def executeMain (eng : WorkflowEngine) (wf : Workflow) (inputs : List (String × Val))
    (resume_from : Option String) (o : Oracle)
    (cbAfterGate : Option CircuitBreaker) : ExecOutcome :=
  let rs := runIdAndStart eng resume_from o.freshRunId
  let run_id := rs.1
  let start_step := rs.2
  let ctx := createContext eng.agentPrimary run_id inputs
  let log0 : List LogEvent := if eng.hasLogger then [LogEvent.run_started] else []
  let createRec := eng.state_store.isSome && !(optStrTruthy resume_from)
  let store1 : Option StateStore := match eng.state_store with
    | none => none
    | some st =>
      if optStrTruthy resume_from then some st
      else some (st.create_execution {
        run_id := run_id
        workflow_id := wf.metadata.id
        status := .running
        total_steps := wf.steps.length
        agent := ctx.agent_name })
  let verrs := validateExecution eng wf ctx
  if verrs ≠ [] then
    let msg := "Validation failed: " ++ String.intercalate "; " verrs
    { result := {
        run_id := run_id
        workflow_id := wf.metadata.id
        agent_name := ctx.agent_name
        status := .failed
        error := some msg }
      state_store := finalizeStore store1 run_id false none (some msg)
      circuit_breaker := cbAfterGate
      log := log0 ++ (if eng.hasLogger then [LogEvent.run_failed] else [])
      logStarted := eng.hasLogger
      recordCreated := createRec
      start_step := start_step }
  else
    let init : LoopState := {
      vars := ctx.vars
      current_step_index := ctx.current_step_index
      step_results := []
      store := store1
      log := log0
      dispatched := []
      sleeps := []
      running := true
      finalStatus := .completed
      errorMessage := none
      broke := false }
    let fin := wf.steps.enum.foldl
      (fun s p => stepIter eng wf o run_id start_step s p.1 p.2) init
    let fin := { fin with running := false }
    let cb2 := match cbAfterGate with
      | none => none
      | some cb => some (if fin.finalStatus == WorkflowStatus.completed then
          cb.record_success else cb.record_failure)
    let success := fin.finalStatus == WorkflowStatus.completed
    let store2 := finalizeStore fin.store run_id success
      (if success then some fin.vars else none) fin.errorMessage
    { result := {
        run_id := run_id
        workflow_id := wf.metadata.id
        agent_name := ctx.agent_name
        status := fin.finalStatus
        step_results := fin.step_results
        final_output := some fin.vars
        error := fin.errorMessage }
      state_store := store2
      circuit_breaker := cb2
      log := fin.log ++ (if eng.hasLogger then
        [if success then LogEvent.run_completed else LogEvent.run_failed] else [])
      logStarted := eng.hasLogger
      recordCreated := createRec
      dispatched := fin.dispatched
      sleeps := fin.sleeps
      start_step := start_step }

/-- Source `execute` (lines 224-423).  The circuit-breaker gate comes
first: when a breaker is configured and `can_execute()` (whose `state`
query may lazily move OPEN to HALF_OPEN) denies, the call returns at
once with a failed result and the fixed error message — no record, no
log, no steps.  `agent_name` is the caller's agent override; the source
only reads it on this refusal path (`agent_name or "unknown"`). -/
def WorkflowEngine.execute (eng : WorkflowEngine) (wf : Workflow)
    (inputs : List (String × Val)) (agent_name : Option String)
    (resume_from : Option String) (o : Oracle) : ExecOutcome :=
  match eng.circuit_breaker with
  | some cb =>
    let q := cb.canExecute o.elapsed
    if q.2 then executeMain eng wf inputs resume_from o (some q.1)
    else
      { result := {
          run_id := pyOrStr resume_from o.freshRunId
          workflow_id := wf.metadata.id
          agent_name := pyOrStr agent_name "unknown"
          status := .failed
          error := some "Circuit breaker is open - too many recent failures" }
        state_store := eng.state_store
        circuit_breaker := some q.1 }
  | none => executeMain eng wf inputs resume_from o none


/-! ## Claim C3 — condition evaluation and skipping -/

/-- The skip criterion, stated from the spec's side (§4.1 condition
evaluation) but amended where the source diverges: a condition fails —
skipping the step — when its resolution raises, or it matches `==` with
unequal trimmed sides, or it matches `>=` (and not `==`) with a failing
numeric parse or a false comparison.  A condition matching *neither*
form does not fail (the source's `if`/`elif` falls through). -/
def specSkipCondition (pn : String → Option ℚ) (rs : String → Option String)
    (c : String) : Prop :=
  match rs c with
  | none => True
  | some r =>
    if hasSub r "==" then pyStrip (splitOnce r "==").1 ≠ pyStrip (splitOnce r "==").2
    else if hasSub r ">=" then
      match pn (pyStrip (splitOnce r ">=").1), pn (pyStrip (splitOnce r ">=").2) with
      | some a, some b => a < b
      | _, _ => True
    else False

theorem evaluateCondition_eq_false_iff (pn : String → Option ℚ)
    (rs : String → Option String) (c : String) :
    evaluateCondition pn rs c = false ↔ specSkipCondition pn rs c := by
  cases h : rs c with
  | none => simp [evaluateCondition, specSkipCondition, h]
  | some r =>
    simp only [evaluateCondition, specSkipCondition, h]
    split_ifs with h1 h2
    · simp [beq_eq_false_iff_ne]
    · cases hp : pn (pyStrip (splitOnce r ">=").1) with
      | none => simp [hp]
      | some a =>
        cases hq : pn (pyStrip (splitOnce r ">=").2) with
        | none => simp [hp, hq]
        | some b => simp [hp, hq]
    · simp

theorem evaluateConditions_eq_all (pn : String → Option ℚ)
    (rs : String → Option String) (l : List String) :
    evaluateConditions pn rs l = l.all (evaluateCondition pn rs) := by
  cases l <;> simp [evaluateConditions]

/-- A skipped step result as the loop constructs it (no output, no
error, zero retries). -/
def skippedResult (stepId : String) : StepResult :=
  { step_id := stepId, status := .skipped }

theorem stepIter_skip (eng : WorkflowEngine) (wf : Workflow) (o : Oracle) (rid : String)
    (start : Nat) (s : LoopState) (i : Nat) (step : WorkflowStep)
    (hb : s.broke = false) (hle : start ≤ i)
    (hcond : evaluateConditions o.parseNum o.resolveCond step.conditions = false) :
    (stepIter eng wf o rid start s i step).step_results =
      s.step_results ++ [skippedResult step.id] ∧
    (stepIter eng wf o rid start s i step).dispatched = s.dispatched := by
  rw [stepIter]
  rw [if_neg (by simp [hb])]
  by_cases hcb : o.cancelBefore i = true <;>
    simp only [hcb, Bool.false_eq_true, if_true, if_false] <;>
    rw [if_neg (by omega : ¬ i < start)] <;>
    by_cases hlog : eng.hasLogger = true <;>
      simp only [hlog, Bool.false_eq_true, if_true, if_false, hcond] <;>
      simp [skippedResult, hcond]

/-- C3 (amended): a step is skipped — the loop appends a skipped
`StepResult` and dispatches nothing — exactly when some condition fails
to resolve, or matches `==` with unequal stripped sides, or matches
`>=` (and not `==`) with a failing parse or a false comparison.  A
condition matching *neither* form is treated as satisfied and does not
cause a skip; an empty condition list always runs. -/
theorem conditions_skip_amended :
    (∀ (pn : String → Option ℚ) (rs : String → Option String) (l : List String),
      evaluateConditions pn rs l = false ↔ ∃ c ∈ l, specSkipCondition pn rs c) ∧
    (∀ pn rs, evaluateConditions pn rs ([] : List String) = true) ∧
    (∀ (pn : String → Option ℚ) (rs : String → Option String) (c r : String),
      rs c = some r → hasSub r "==" = false → hasSub r ">=" = false →
      evaluateConditions pn rs [c] = true) ∧
    (∀ (eng : WorkflowEngine) (wf : Workflow) (o : Oracle) (rid : String)
       (start : Nat) (s : LoopState) (i : Nat) (step : WorkflowStep),
      s.broke = false → start ≤ i →
      evaluateConditions o.parseNum o.resolveCond step.conditions = false →
      (stepIter eng wf o rid start s i step).step_results =
        s.step_results ++ [skippedResult step.id] ∧
      (stepIter eng wf o rid start s i step).dispatched = s.dispatched) := by
  refine ⟨fun pn rs l => ?_, fun pn rs => rfl, fun pn rs c r h h1 h2 => ?_,
    fun eng wf o rid start s i step hb hle hcond =>
      stepIter_skip eng wf o rid start s i step hb hle hcond⟩
  · rw [evaluateConditions_eq_all, List.all_eq_false]
    constructor
    · rintro ⟨c, hc, hf⟩
      exact ⟨c, hc, (evaluateCondition_eq_false_iff pn rs c).mp (by simpa using hf)⟩
    · rintro ⟨c, hc, hf⟩
      exact ⟨c, hc, by simp [(evaluateCondition_eq_false_iff pn rs c).mpr hf]⟩
  · simp [evaluateConditions, evaluateCondition, h, h1, h2]

/-- A one-step workflow whose only condition, `"status"`, matches
neither the `==` nor the `>=` form. -/
def neitherFormWf : Workflow := {
  metadata := { id := "wf3", name := "W3", error_handling := .stop }
  steps := [{ id := "c0", name := "c0", action := "tool.t", conditions := ["status"] }] }

/-- An oracle whose dispatch always succeeds and whose resolver is the
identity (the condition contains no placeholders). -/
def neitherFormOracle : Oracle := { dispatch := fun _ _ => .ok (.vstr "ran") }

/-- C3 counterexample: the condition `"status"` matches neither form,
yet the step is *not* skipped — the engine dispatches it and records a
completed result, where the claim requires a skipped `StepResult` and
no dispatch. -/
theorem condition_matching_neither_form_is_not_skipped :
    evaluateConditions neitherFormOracle.parseNum neitherFormOracle.resolveCond
      ["status"] = true ∧
    (WorkflowEngine.execute {} neitherFormWf [] none none neitherFormOracle).dispatched
      = [(0, 0)] ∧
    (WorkflowEngine.execute {} neitherFormWf [] none none
      neitherFormOracle).result.step_results.map (fun r => r.status)
      = [StepStatus.completed] :=
  ⟨by decide, by decide, by decide⟩

/-- An empty loop state, as at the start of a run with no inputs. -/
def emptyLoopState : LoopState := {
  vars := []
  current_step_index := 0
  step_results := []
  store := none
  log := []
  dispatched := []
  sleeps := []
  running := true
  finalStatus := .completed
  errorMessage := none
  broke := false }

/-- A step guarded by a condition that matches `==` with unequal sides. -/
def skipWitnessStep : WorkflowStep :=
  { id := "sk", name := "sk", action := "tool.t", conditions := ["a == b"] }

/-- An oracle for the C3 witness (identity resolver, no parses). -/
def skipWitnessOracle : Oracle := { dispatch := fun _ _ => .ok .vnone }

/-- Witness for C3 (amended) at concrete inputs: a neither-form
condition list passes, and a failing `==` condition makes the loop
append exactly a skipped result. -/
theorem conditions_skip_amended_witness :
    evaluateConditions skipWitnessOracle.parseNum skipWitnessOracle.resolveCond
      ["status"] = true ∧
    (stepIter {} neitherFormWf skipWitnessOracle "r" 0 emptyLoopState 0
      skipWitnessStep).step_results = [skippedResult "sk"] := by
  refine ⟨conditions_skip_amended.2.2.1 _ _ "status" "status" rfl (by decide) (by decide), ?_⟩
  have h := (conditions_skip_amended.2.2.2 {} neitherFormWf skipWitnessOracle "r" 0
    emptyLoopState 0 skipWitnessStep rfl (by decide) (by decide)).1
  simpa [emptyLoopState] using h

/-! ## Claim C4 — agent hints merge -/

theorem dictGet_dictMerge (a b : List (String × Val)) (k : String) :
    dictGet (dictMerge a b) k = (dictGet b k).or (dictGet a k) := by
  simp only [dictGet, dictMerge, List.reverse_append, List.find?_append]
  cases (b.reverse.find? fun p => decide (p.1 = k)) <;> simp

/-- C4 (amended): `_execute_agent_task` computes the merged mapping
`{**inputs, **hints}` — with hints overwriting resolved inputs on key
collision — but then discards it: the agent adapter is invoked with the
step and context only, so the call's outcome cannot depend on the
resolved inputs passed in.  With no adapter configured the call fails
with the configuration error. -/
theorem agent_task_merge_amended :
    (∀ (ad : AgentAdapter) (st : WorkflowStep) (inputs : List (String × Val))
       (ctx : ExecutionContext),
      executeAgentTask (some ad) st inputs ctx = ad st ctx) ∧
    (∀ (ad : AgentAdapter) (st : WorkflowStep) (i1 i2 : List (String × Val))
       (ctx : ExecutionContext),
      executeAgentTask (some ad) st i1 ctx = executeAgentTask (some ad) st i2 ctx) ∧
    (∀ (st : WorkflowStep) (inputs : List (String × Val)) (agent k : String),
      dictGet (agentTaskInputs st inputs agent) k =
        (dictGet (st.hints agent) k).or (dictGet inputs k)) ∧
    (∀ (st : WorkflowStep) (inputs : List (String × Val)) (ctx : ExecutionContext),
      executeAgentTask none st inputs ctx = .error "No agent adapter configured") :=
  ⟨fun _ _ _ _ => rfl, fun _ _ _ _ _ => rfl,
    fun st inputs agent k => dictGet_dictMerge inputs (st.hints agent) k,
    fun _ _ _ => rfl⟩

/-- An adapter that reveals everything it is invoked with (step and
context) through its return value. -/
def probeAdapter : AgentAdapter := fun _ c => .ok (.vstr c.agent_name)

/-- An agent step carrying a hint for every agent. -/
def hintedStep : WorkflowStep :=
  { id := "a0", name := "a0", action := "agent.task", hints := fun _ => [("h", .vnum 1)] }

/-- A context as `_create_context` builds it with default config. -/
def agentCtx : ExecutionContext := createContext none "r0" []

/-- C4 counterexample: two calls whose merged `task_inputs` mappings
differ (at key `"a"`) produce identical adapter invocations with
identical outcomes — the adapter is not invoked with the merged input
mapping, contradicting the claim. -/
theorem merged_inputs_not_passed_to_adapter :
    executeAgentTask (some probeAdapter) hintedStep [("a", .vnum 1)] agentCtx
      = executeAgentTask (some probeAdapter) hintedStep [("a", .vnum 2)] agentCtx ∧
    dictGet (agentTaskInputs hintedStep [("a", .vnum 1)] agentCtx.agent_name) "a"
      = some (Val.vnum 1) ∧
    dictGet (agentTaskInputs hintedStep [("a", .vnum 2)] agentCtx.agent_name) "a"
      = some (Val.vnum 2) ∧
    (Val.vnum 1 : Val) ≠ Val.vnum 2 := by
  refine ⟨rfl, rfl, rfl, ?_⟩
  intro h
  cases h

/-! ## Claim C5 — run-id selection and format -/

theorem executeMain_run_id_start (eng : WorkflowEngine) (wf : Workflow)
    (inputs : List (String × Val)) (rf : Option String) (o : Oracle)
    (cbg : Option CircuitBreaker) :
    (executeMain eng wf inputs rf o cbg).result.run_id =
      (runIdAndStart eng rf o.freshRunId).1 ∧
    (executeMain eng wf inputs rf o cbg).start_step =
      (runIdAndStart eng rf o.freshRunId).2 := by
  unfold executeMain
  dsimp only
  split <;> exact ⟨rfl, rfl⟩

/-- C5 (amended): when `resume_from` is given (non-empty) and a state
store is configured, `execute` reuses `resume_from` as the run id and
starts at the store's checkpoint-derived resume point — whether or not
the store holds a record for it.  A fresh id (of the form
`<workflow_id>-<timestamp>-<8 uuid hex chars>`, as `_generate_run_id`
builds it) is used only when `resume_from` is absent or empty, or no
state store is configured. -/
theorem run_id_selection_amended :
    (∀ (eng : WorkflowEngine) (wf : Workflow) (inputs : List (String × Val))
       (o : Oracle) (cbg : Option CircuitBreaker) (st : StateStore) (rid : String),
      eng.state_store = some st → rid ≠ "" →
      (executeMain eng wf inputs (some rid) o cbg).result.run_id = rid ∧
      (executeMain eng wf inputs (some rid) o cbg).start_step =
        st.get_resume_point rid) ∧
    (∀ (eng : WorkflowEngine) (wf : Workflow) (inputs : List (String × Val))
       (o : Oracle) (cbg : Option CircuitBreaker),
      (executeMain eng wf inputs none o cbg).result.run_id = o.freshRunId ∧
      (executeMain eng wf inputs none o cbg).start_step = 0) ∧
    (∀ (eng : WorkflowEngine) (wf : Workflow) (inputs : List (String × Val))
       (rid : String) (o : Oracle) (cbg : Option CircuitBreaker),
      eng.state_store = none →
      (executeMain eng wf inputs (some rid) o cbg).result.run_id = o.freshRunId) ∧
    (∀ wid ts hex : String,
      generateRunId wid ts hex = wid ++ "-" ++ ts ++ "-" ++ String.mk (hex.data.take 8)) ∧
    generateRunId "wf" "20260101-120000" "0123456789abcdef" = "wf-20260101-120000-01234567" := by
  refine ⟨?_, ?_, ?_, fun _ _ _ => rfl, by decide⟩
  · intro eng wf inputs o cbg st rid h hrid
    have hrs : runIdAndStart eng (some rid) o.freshRunId = (rid, st.get_resume_point rid) := by
      simp [runIdAndStart, h, hrid]
    exact ⟨by rw [(executeMain_run_id_start eng wf inputs (some rid) o cbg).1, hrs],
      by rw [(executeMain_run_id_start eng wf inputs (some rid) o cbg).2, hrs]⟩
  · intro eng wf inputs o cbg
    have hrs : runIdAndStart eng none o.freshRunId = (o.freshRunId, 0) := by
      rcases hst : eng.state_store with _ | st <;> simp [runIdAndStart, hst]
    exact ⟨by rw [(executeMain_run_id_start eng wf inputs none o cbg).1, hrs],
      by rw [(executeMain_run_id_start eng wf inputs none o cbg).2, hrs]⟩
  · intro eng wf inputs rid o cbg h
    have hrs : runIdAndStart eng (some rid) o.freshRunId = (o.freshRunId, 0) := by
      simp [runIdAndStart, h]
    rw [(executeMain_run_id_start eng wf inputs (some rid) o cbg).1, hrs]

/-- A state store holding no records and no checkpoints. -/
def emptyStore : StateStore := {}

/-- An engine configured with the empty store. -/
def ghostEngine : WorkflowEngine := { state_store := some emptyStore }

/-- An oracle whose fresh id has the spec's documented shape. -/
def ghostOracle : Oracle :=
  { dispatch := fun _ _ => .ok .vnone, freshRunId := "wf-20260101-120000-01234567" }

/-- A minimal one-step workflow. -/
def ghostWf : Workflow := {
  metadata := { id := "wf", name := "W", error_handling := .stop }
  steps := [{ id := "g0", name := "g0", action := "tool.t" }] }

/-- C5 counterexample: `resume_from = "ghost"` with a configured store
that has *no* record for it — the claim requires a fresh run id, but
the engine reuses `"ghost"`. -/
theorem resume_without_record_reuses_run_id :
    emptyStore.get_execution "ghost" = none ∧
    (ghostEngine.execute ghostWf [] none (some "ghost") ghostOracle).result.run_id
      = "ghost" ∧
    (ghostEngine.execute ghostWf [] none (some "ghost") ghostOracle).result.run_id
      ≠ ghostOracle.freshRunId :=
  ⟨rfl, by decide, by decide⟩

/-- A store whose only checkpoint completes step 0 of run `"rw"`. -/
def resumePointStore : StateStore := {
  checkpoints := [{ run_id := "rw", step_index := 0, step_name := "g0", status := .completed }] }

/-- An engine configured with `resumePointStore`. -/
def resumePointEngine : WorkflowEngine := { state_store := some resumePointStore }

/-- Witness for C5 (amended): resuming run `"rw"` against a store whose
step-0 checkpoint is completed reuses the id and starts at step 1. -/
theorem run_id_selection_amended_witness :
    (executeMain resumePointEngine ghostWf [] (some "rw") ghostOracle none).result.run_id
      = "rw" ∧
    (executeMain resumePointEngine ghostWf [] (some "rw") ghostOracle none).start_step
      = 1 := by
  have h := run_id_selection_amended.1 resumePointEngine ghostWf [] ghostOracle none
    resumePointStore "rw" rfl (by decide)
  exact ⟨h.1, by rw [h.2]; decide⟩

/-! ## Claim C6 — circuit-open refusal -/

/-- A breaker that denies execution: OPEN with the recovery timeout not
yet elapsed. -/
def openBreaker : CircuitBreaker :=
  { state := .opened, failure_count := 5, has_last_failure := true }

/-- An engine with the open breaker, a store and a logger, to observe
that the refusal path touches neither. -/
def circuitEngine : WorkflowEngine :=
  { circuit_breaker := some openBreaker, state_store := some {}, hasLogger := true }

/-- An oracle for the refusal runs (never consulted past the gate). -/
def circuitOracle : Oracle := { dispatch := fun _ _ => .ok .vnone }

/-- C6 counterexample: on the refusal path the error text is
`"Circuit breaker is open - too many recent failures"`, which does
*not* contain the lowercase marker `"circuit"` the claim requires (the
capitalized `"Circuit"` is present instead). -/
theorem circuit_open_error_lacks_lowercase_marker :
    (circuitEngine.execute ghostWf [] none none circuitOracle).result.status
      = .failed ∧
    (circuitEngine.execute ghostWf [] none none circuitOracle).result.error
      = some "Circuit breaker is open - too many recent failures" ∧
    hasSub "Circuit breaker is open - too many recent failures" "circuit" = false ∧
    hasSub "Circuit breaker is open - too many recent failures" "Circuit" = true :=
  ⟨by decide, rfl, by decide, by decide⟩

/-- C6 (amended): when a breaker is configured and `can_execute()`
denies, `execute` returns immediately: status failed, the fixed error
message (which contains the marker `"Circuit"`; matching `"circuit"`
requires case-insensitivity), no record created, no log started, no
events, no dispatch, the state store untouched, and the run id taken
from `resume_from` when truthy else the fresh id. -/
theorem circuit_open_refusal_amended :
    ∀ (eng : WorkflowEngine) (wf : Workflow) (inputs : List (String × Val))
      (an rf : Option String) (o : Oracle) (cb : CircuitBreaker),
    eng.circuit_breaker = some cb → (cb.canExecute o.elapsed).2 = false →
    (eng.execute wf inputs an rf o).result.status = .failed ∧
    (eng.execute wf inputs an rf o).result.error =
      some "Circuit breaker is open - too many recent failures" ∧
    hasSub "Circuit breaker is open - too many recent failures" "Circuit" = true ∧
    (eng.execute wf inputs an rf o).recordCreated = false ∧
    (eng.execute wf inputs an rf o).logStarted = false ∧
    (eng.execute wf inputs an rf o).log = [] ∧
    (eng.execute wf inputs an rf o).dispatched = [] ∧
    (eng.execute wf inputs an rf o).state_store = eng.state_store ∧
    (eng.execute wf inputs an rf o).result.run_id = pyOrStr rf o.freshRunId := by
  intro eng wf inputs an rf o cb h hq
  have hred : eng.execute wf inputs an rf o = {
      result := {
        run_id := pyOrStr rf o.freshRunId
        workflow_id := wf.metadata.id
        agent_name := pyOrStr an "unknown"
        status := .failed
        error := some "Circuit breaker is open - too many recent failures" }
      state_store := eng.state_store
      circuit_breaker := some (cb.canExecute o.elapsed).1 } := by
    unfold WorkflowEngine.execute
    rw [h]
    dsimp only
    rw [if_neg (by simp [hq])]
  rw [hred]
  exact ⟨rfl, rfl, by decide, rfl, rfl, rfl, rfl, rfl, rfl⟩

/-- Witness for C6 (amended) at the concrete open-breaker engine. -/
theorem circuit_open_refusal_amended_witness :
    (circuitEngine.execute ghostWf [] none none circuitOracle).result.status
      = .failed ∧
    (circuitEngine.execute ghostWf [] none none circuitOracle).recordCreated = false ∧
    (circuitEngine.execute ghostWf [] none none circuitOracle).logStarted = false := by
  have h := circuit_open_refusal_amended circuitEngine ghostWf [] none none
    circuitOracle openBreaker rfl (by decide)
  exact ⟨h.1, h.2.2.2.1, h.2.2.2.2.1⟩

/-! ## Claim C10 — validation failures and the breaker -/

theorem stateQuery_failure_count (cb : CircuitBreaker) (e : Bool) :
    (cb.stateQuery e).failure_count = cb.failure_count := by
  unfold CircuitBreaker.stateQuery
  split <;> rfl

theorem stateQuery_has_last_failure (cb : CircuitBreaker) (e : Bool) :
    (cb.stateQuery e).has_last_failure = cb.has_last_failure := by
  unfold CircuitBreaker.stateQuery
  split <;> rfl

theorem stateQuery_of_state_ne_opened (cb : CircuitBreaker) (e : Bool)
    (h : cb.state ≠ .opened) : cb.stateQuery e = cb := by
  unfold CircuitBreaker.stateQuery
  rw [if_neg (by simp [h])]

theorem executeMain_validation_fail (eng : WorkflowEngine) (wf : Workflow)
    (inputs : List (String × Val)) (rf : Option String) (o : Oracle)
    (cbg : Option CircuitBreaker)
    (hv : validateExecution eng wf (createContext eng.agentPrimary
      (runIdAndStart eng rf o.freshRunId).1 inputs) ≠ []) :
    (executeMain eng wf inputs rf o cbg).result.status = .failed ∧
    (executeMain eng wf inputs rf o cbg).circuit_breaker = cbg := by
  unfold executeMain
  dsimp only
  rw [if_pos hv]
  exact ⟨rfl, rfl⟩

/-- C10 (amended): a run that fails pre-execution validation returns a
failed result without `record_failure` or `record_success` ever being
applied: the breaker ends exactly as the gate's `state` query left it,
so its failure count and failure timestamp are unchanged, and its state
is unchanged too except for the lazy time-based OPEN → HALF_OPEN
transition performed by that query — repeated validation failures can
never open the circuit. -/
theorem validation_failure_breaker_frame_amended :
    ∀ (eng : WorkflowEngine) (wf : Workflow) (inputs : List (String × Val))
      (an rf : Option String) (o : Oracle) (cb : CircuitBreaker),
    eng.circuit_breaker = some cb →
    validateExecution eng wf (createContext eng.agentPrimary
      (runIdAndStart eng rf o.freshRunId).1 inputs) ≠ [] →
    (eng.execute wf inputs an rf o).result.status = .failed ∧
    (eng.execute wf inputs an rf o).circuit_breaker =
      some (cb.stateQuery o.elapsed) ∧
    (cb.stateQuery o.elapsed).failure_count = cb.failure_count ∧
    (cb.stateQuery o.elapsed).has_last_failure = cb.has_last_failure ∧
    (cb.state ≠ .opened → cb.stateQuery o.elapsed = cb) := by
  intro eng wf inputs an rf o cb h hv
  refine ⟨?_, ?_, stateQuery_failure_count cb o.elapsed,
    stateQuery_has_last_failure cb o.elapsed,
    fun hne => stateQuery_of_state_ne_opened cb o.elapsed hne⟩
  · unfold WorkflowEngine.execute
    rw [h]
    dsimp only
    by_cases hq : (cb.canExecute o.elapsed).2 = true
    · rw [if_pos hq]
      exact (executeMain_validation_fail eng wf inputs rf o _ hv).1
    · rw [if_neg hq]
  · unfold WorkflowEngine.execute
    rw [h]
    dsimp only
    by_cases hq : (cb.canExecute o.elapsed).2 = true
    · rw [if_pos hq]
      rw [(executeMain_validation_fail eng wf inputs rf o _ hv).2]
      rfl
    · rw [if_neg hq]
      rfl

/-- A workflow requiring input `"q"` (no default), so an empty input
map fails validation. -/
def validationWf : Workflow := {
  metadata := { id := "wf10", name := "W10", error_handling := .stop }
  steps := []
  inputParams := [{ name := "q", required := true }] }

/-- An OPEN breaker whose recovery timeout has elapsed by the next run. -/
def staleOpenBreaker : CircuitBreaker :=
  { failure_threshold := 1, state := .opened, failure_count := 1,
    has_last_failure := true }

/-- An engine guarded by the stale open breaker. -/
def staleEngine : WorkflowEngine := { circuit_breaker := some staleOpenBreaker }

/-- An oracle in which the breaker's recovery timeout has elapsed. -/
def elapsedOracle : Oracle := { dispatch := fun _ _ => .ok .vnone, elapsed := true }

/-- C10 counterexample: a validation-failing run whose can-execute gate
performs the lazy OPEN → HALF_OPEN transition — the breaker's state
*does* change across this validation failure, where the claim says
state, count and timestamps are all unchanged. -/
theorem validation_failure_can_move_breaker_state :
    (staleEngine.execute validationWf [] none none elapsedOracle).result.status
      = .failed ∧
    (staleEngine.execute validationWf [] none none elapsedOracle).result.error
      = some "Validation failed: Required input not provided: q" ∧
    staleOpenBreaker.state = .opened ∧
    ((staleEngine.execute validationWf [] none none
      elapsedOracle).circuit_breaker.map fun c => c.state) = some .halfOpen :=
  ⟨by decide, rfl, rfl, by decide⟩

/-- Witness for C10 (amended) at the stale-open-breaker engine. -/
theorem validation_failure_breaker_frame_amended_witness :
    (staleEngine.execute validationWf [] none none elapsedOracle).result.status
      = .failed ∧
    ((staleEngine.execute validationWf [] none none
      elapsedOracle).circuit_breaker.map fun c => c.failure_count) = some 1 := by
  have h := validation_failure_breaker_frame_amended staleEngine validationWf [] none
    none elapsedOracle staleOpenBreaker rfl (by decide)
  refine ⟨h.1, ?_⟩
  rw [h.2.1]
  rw [Option.map_some']
  rw [h.2.2.1]
  rfl

/-! ## Claim C7 — retry budget, delays and retry-log entries -/

/-- The list `[a, a+1, …, a+n-1]`. -/
def countUp (a : Nat) : Nat → List Nat
  | 0 => []
  | n + 1 => a :: countUp (a + 1) n

theorem countUp_length (a n : Nat) : (countUp a n).length = n := by
  induction n generalizing a with
  | zero => rfl
  | succ n ih => simp [countUp, ih]

theorem attemptsLoop_allFail (policy : RetryPolicy) (e : String) (rand : Nat → ℚ)
    (logOn : Bool) (sid sn : String) (idx maxr : Nat) :
    ∀ (fuel a : Nat) (lastErr : Option String), a + fuel = maxr + 1 →
      (attemptsLoop policy (fun _ => .error e) rand logOn sid sn idx maxr a fuel
        lastErr).dispatchedAttempts = countUp a fuel ∧
      (attemptsLoop policy (fun _ => .error e) rand logOn sid sn idx maxr a fuel
        lastErr).sleeps =
        (countUp a (fuel - 1)).map (fun k => policy.get_delay (k + 1) (rand k)) ∧
      (attemptsLoop policy (fun _ => .error e) rand logOn sid sn idx maxr a fuel
        lastErr).result.retries = maxr ∧
      (attemptsLoop policy (fun _ => .error e) rand logOn sid sn idx maxr a fuel
        lastErr).result.status = .failed ∧
      (attemptsLoop policy (fun _ => .error e) rand logOn sid sn idx maxr a fuel
        lastErr).retryEvents.length = (if logOn then fuel - 1 else 0) := by
  intro fuel
  induction fuel with
  | zero =>
    intro a lastErr h
    refine ⟨rfl, rfl, rfl, rfl, ?_⟩
    cases logOn <;> rfl
  | succ f ih =>
    intro a lastErr h
    by_cases hlt : a < maxr
    · have hf : 1 ≤ f := by omega
      obtain ⟨d1, d2, d3, d4, d5⟩ := ih (a + 1) (some e) (by omega)
      simp only [attemptsLoop]
      rw [if_pos hlt]
      refine ⟨?_, ?_, d3, d4, ?_⟩
      · simpa [countUp] using d1
      · have hcu : countUp a f = a :: countUp (a + 1) (f - 1) := by
          cases f with
          | zero => omega
          | succ g => simp [countUp]
        simp only [Nat.add_sub_cancel]
        rw [hcu]
        simp [d2]
      · rw [List.length_append, d5]
        cases logOn <;> simp <;> omega
    · have hf : f = 0 := by omega
      have ha : a = maxr := by omega
      subst hf
      subst ha
      simp only [attemptsLoop]
      rw [if_neg hlt]
      refine ⟨rfl, rfl, rfl, rfl, ?_⟩
      cases logOn <;> rfl

/- `Rat.mul` is irreducible by default, which blocks definitional
evaluation of concrete delay arithmetic; restore the default
reducibility for it here. -/
unseal Rat.mul

/-- The engine's default retry policy with `jitter = 0`, as the claim's
scenario fixes it. -/
def retryPolicyFix : RetryPolicy := { jitter := 0 }

/-- A step with declared `max_retries = 3`. -/
def retryStepFix : WorkflowStep :=
  { id := "r", name := "r", action := "tool.t", max_retries := 3 }

/-- A dispatch failing on attempts 0 and 1 (1st and 2nd) and succeeding
on attempt 2 (3rd). -/
def retryDispatchFix : Nat → Except String Val :=
  fun a => if a < 2 then .error "boom" else .ok (.vstr "ok")

/-- The retry outcome of the claim's scenario, with logging on. -/
def retryOutFix : RetryOut :=
  executeStepWithRetry retryPolicyFix retryDispatchFix (fun _ => 0) true retryStepFix 0

/-- C7 counterexample: in the claim's own scenario (fail, fail, succeed;
step `max_retries = 3`; jitter 0, base 1.0, exponential 2.0) the
scenario's other expectations hold — `retries = 2`, status completed,
delays `[1.0, 2.0]` — but exactly *two* `step_retrying` entries are
emitted, not the three the claim states. -/
theorem retry_scenario_emits_two_not_three_entries :
    retryOutFix.result.retries = 2 ∧
    retryOutFix.result.status = .completed ∧
    retryOutFix.sleeps = [1, 2] ∧
    retryOutFix.retryEvents.length = 2 ∧
    retryOutFix.retryEvents.length ≠ 3 :=
  ⟨by decide, by decide, by decide, by decide, by decide⟩

/-- C7 (amended): the scenario produces `retries = 2`, status completed,
exactly *two* `step_retrying` log entries — with attempt indices 1 and 2
against budget 3 and delays 1.0 and 2.0 — and sleeps `[1.0, 2.0]`; and
in general the effective retry budget is
`min(step.max_retries, policy.max_retries)`, an always-failing step is
dispatched `budget + 1` times, and the sleep between attempts `k` and
`k+1` is `get_delay(k)` (1-based). -/
theorem retry_budget_and_delays_amended :
    retryOutFix.result.retries = 2 ∧
    retryOutFix.result.status = .completed ∧
    retryOutFix.retryEvents =
      [LogEvent.step_retrying "r" 0 1 3 1, LogEvent.step_retrying "r" 0 2 3 2] ∧
    retryOutFix.sleeps = [1, 2] ∧
    (∀ (policy : RetryPolicy) (step : WorkflowStep) (e : String) (rand : Nat → ℚ)
       (logOn : Bool) (i : Nat),
      (executeStepWithRetry policy (fun _ => .error e) rand logOn step
        i).dispatchedAttempts.length = min step.max_retries policy.max_retries + 1 ∧
      (executeStepWithRetry policy (fun _ => .error e) rand logOn step i).sleeps =
        (countUp 0 (min step.max_retries policy.max_retries)).map
          (fun k => policy.get_delay (k + 1) (rand k)) ∧
      (executeStepWithRetry policy (fun _ => .error e) rand logOn step
        i).result.retries = min step.max_retries policy.max_retries ∧
      (executeStepWithRetry policy (fun _ => .error e) rand logOn step
        i).result.status = .failed) := by
  refine ⟨by decide, by decide, ?_, by decide, ?_⟩
  · rfl
  · intro policy step e rand logOn i
    obtain ⟨d1, d2, d3, d4, _⟩ := attemptsLoop_allFail policy e rand logOn step.id
      step.name i (min step.max_retries policy.max_retries)
      (min step.max_retries policy.max_retries + 1) 0 none (by omega)
    refine ⟨?_, ?_, d3, d4⟩
    · rw [executeStepWithRetry] at *
      rw [d1, countUp_length]
    · rw [executeStepWithRetry] at *
      rw [d2]
      simp

/-! ## Claim C1 — resume does not reload prior output variables -/

/-- The two-step workflow of the resume scenario: step 0 binds `"x"`,
step 1 binds `"y"`. -/
def resumeWf : Workflow := {
  metadata := { id := "wf", name := "W", error_handling := .stop }
  steps := [
    { id := "s0", name := "s0", action := "tool.t", output_variable := some "x" },
    { id := "s1", name := "s1", action := "tool.t", output_variable := some "y" }] }

/-- Dispatch succeeding with `"v0"` on step 0 and `"v1"` on step 1. -/
def resumeOracle : Oracle :=
  { dispatch := fun i _ => .ok (.vstr (if i = 0 then "v0" else "v1")) }

/-- An engine with a fresh (empty) store, for the uninterrupted run. -/
def freshEngine : WorkflowEngine := { state_store := some {} }

/-- The store as a crash after step 0 leaves it: the run `"r1"` record
and a completed step-0 checkpoint (with its output persisted), no
checkpoint for step 1. -/
def crashedStore : StateStore := {
  executions := [{ run_id := "r1", workflow_id := "wf", status := .running, total_steps := 2, agent := "opencode" }]
  checkpoints := [{ run_id := "r1", step_index := 0, step_name := "s0", status := .completed, outputs := some (.vstr "v0") }] }

/-- The engine as it resumes against the crashed store. -/
def resumedEngine : WorkflowEngine := { state_store := some crashedStore }

/-- C1 (code bug): resuming run `"r1"` after step 0's checkpoint is
completed starts the loop at step 1 and does not re-dispatch step 0 —
that half of the claim holds — but the prior `output_variable` binding
`"x" ↦ "v0"` is *not* reloaded into the variables (nothing between
`_create_context` and the loop reads the checkpoints' outputs), so the
resumed run's final variables lack `"x"` while an uninterrupted run
binds it: the final variables differ, violating the claim and spec P4
even though the step-0 output sits unread in the checkpoint. -/
theorem resume_loses_prior_output_variables :
    crashedStore.get_resume_point "r1" = 1 ∧
    (resumedEngine.execute resumeWf [] none (some "r1") resumeOracle).start_step = 1 ∧
    (resumedEngine.execute resumeWf [] none (some "r1") resumeOracle).dispatched
      = [(1, 0)] ∧
    (resumedEngine.execute resumeWf [] none (some "r1") resumeOracle).result.status
      = .completed ∧
    dictGet ((resumedEngine.execute resumeWf [] none (some "r1")
      resumeOracle).result.final_output.getD []) "x" = none ∧
    dictGet ((freshEngine.execute resumeWf [] none none
      resumeOracle).result.final_output.getD []) "x" = some (Val.vstr "v0") ∧
    dictGet ((freshEngine.execute resumeWf [] none none
      resumeOracle).result.final_output.getD []) "y" = some (Val.vstr "v1") ∧
    dictGet ((resumedEngine.execute resumeWf [] none (some "r1")
      resumeOracle).result.final_output.getD []) "y" = some (Val.vstr "v1") :=
  ⟨by decide, by decide, by decide, by decide, rfl, rfl, rfl, rfl⟩

/-! ## Claim C2 — cancellation is never observed by the step loop -/

/-- An oracle in which the environment calls `cancel()` between loop
iterations 0 and 1, and every dispatch succeeds. -/
def cancelOracle : Oracle :=
  { dispatch := fun _ _ => .ok (.vstr "ok"), cancelBefore := fun i => i == 1 }

/-- C2 (code bug): `cancel()` clears the running flag between steps 0
and 1, yet the loop — which never reads `_running` — still dispatches
step 1, and the run finishes with status completed and no error at all,
where the claim requires that no step after the current one is
dispatched and the result be failed with error `"cancelled"`. -/
theorem cancel_is_not_observed_by_step_loop :
    cancelOracle.cancelBefore 1 = true ∧
    (WorkflowEngine.execute {} resumeWf [] none none cancelOracle).dispatched
      = [(0, 0), (1, 0)] ∧
    (WorkflowEngine.execute {} resumeWf [] none none cancelOracle).result.status
      = .completed ∧
    (WorkflowEngine.execute {} resumeWf [] none none cancelOracle).result.error
      = none :=
  ⟨by decide, by decide, by decide, rfl⟩
